import Mathlib

/-!
Verification of the njalla-dns-go client library.

This file shallowly embeds the client core (client.go) and the five guarded
resource operations (record, domain, forward, glue sub-clients) and proves
the stated properties of the read-modify-write existence-guard pattern and
of the request/response envelope handling.
-/

namespace NjallaDns

/-- Go `context.Context` values as far as the client distinguishes them:
`context.Background()` or a caller-supplied context, identified by a tag. -/
inductive Ctx where
  | background
  | custom (id : Nat)
deriving DecidableEq

/-! ## Schema types (njalla/schema) -/

/-- schema.RecordResponse. -/
structure RecordResponse where
  ID : String
  Name : String
  «Type» : String
  Content : String
  TTL : Int
deriving DecidableEq

/-- schema.RecordCreateParams. -/
structure RecordCreateParams where
  Domain : String
  «Type» : String
  Name : String
  Content : String
  TTL : Int
  Prio : Int
  Weight : Int
  Port : Int
  Target : String
  SSHAlgorithm : Int
  SSHType : Int
deriving DecidableEq

/-- schema.RecordUpdateParams. -/
structure RecordUpdateParams where
  ID : String
  Domain : String
  «Type» : String
  Name : String
  Content : String
  TTL : Int
  Prio : Int
  Weight : Int
  Port : Int
  Target : String
  SSHAlgorithm : Int
  SSHType : Int
deriving DecidableEq

/-- schema.RecordDeleteParams. -/
structure RecordDeleteParams where
  ID : String
  Domain : String
deriving DecidableEq

/-- schema.RecordCreateRequest. -/
structure RecordCreateRequest where
  Method : String
  Params : RecordCreateParams
deriving DecidableEq

/-- schema.RecordUpdateRequest. -/
structure RecordUpdateRequest where
  Method : String
  Params : RecordUpdateParams
deriving DecidableEq

/-- schema.RecordDeleteRequest. -/
structure RecordDeleteRequest where
  Method : String
  Params : RecordDeleteParams
deriving DecidableEq

/-- schema.RecordCreateRequestResponse. -/
structure RecordCreateRequestResponse where
  ID : String
  Name : String
  «Type» : String
  Content : String
  TTL : Int
deriving DecidableEq

/-- schema.RecordUpdateRequestResponse. -/
structure RecordUpdateRequestResponse where
  ID : String
  Name : String
  «Type» : String
  Content : String
  TTL : Int
deriving DecidableEq

/-- schema.RecordDeleteRequestResponse (empty struct). -/
inductive RecordDeleteRequestResponse where
  | mk
deriving DecidableEq

/-- schema.ListDomainResponse. -/
structure ListDomainResponse where
  Name : String
  Status : String
  Expiry : String
  Autorenew : Bool
deriving DecidableEq

/-- schema.UpdateDomainParams. -/
structure UpdateDomainParams where
  Domain : String
  MailForwarding : Bool
  DNSSEC : Bool
  Lock : Bool
deriving DecidableEq

/-- schema.UpdateDomainRequest. -/
structure UpdateDomainRequest where
  Method : String
  Params : UpdateDomainParams
deriving DecidableEq

/-- schema.UpdateDomainRequestResponse. -/
structure UpdateDomainRequestResponse where
  Name : String
  Status : String
  Expiry : String
  Autorenew : Bool
  Locked : Bool
  Mailforwarding : Bool
  MaxNameservers : Int
  DNSSECType : String
  MaxStaticPages : Int
deriving DecidableEq

/-- schema.ForwardResponse. -/
structure ForwardResponse where
  From : String
  To : String
deriving DecidableEq

/-- schema.ForwardParams. -/
structure ForwardParams where
  Domain : String
  From : String
  To : String
deriving DecidableEq

/-- schema.ForwardCreateRequest. -/
structure ForwardCreateRequest where
  Method : String
  Params : ForwardParams
deriving DecidableEq

/-- schema.ForwardCreateRequestResponse. -/
structure ForwardCreateRequestResponse where
  Domain : String
  From : String
  To : String
deriving DecidableEq

/-- schema.ForwardDeleteRequest. -/
structure ForwardDeleteRequest where
  Method : String
  Params : ForwardParams
deriving DecidableEq

/-- schema.ForwardDeleteRequestResponse (empty struct). -/
inductive ForwardDeleteRequestResponse where
  | mk
deriving DecidableEq

/-- schema.GlueResponse. -/
structure GlueResponse where
  Name : String
  Address4 : String
  Address6 : String
deriving DecidableEq

/-- schema.GlueParams. -/
structure GlueParams where
  Domain : String
  Name : String
  Address4 : String
  Address6 : String
deriving DecidableEq

/-- schema.GlueDeleteParams. -/
structure GlueDeleteParams where
  Domain : String
  Name : String
deriving DecidableEq

/-- schema.GlueCreateRequest. -/
structure GlueCreateRequest where
  Method : String
  Params : GlueParams
deriving DecidableEq

/-- schema.GlueUpdateRequest. -/
structure GlueUpdateRequest where
  Method : String
  Params : GlueParams
deriving DecidableEq

/-- schema.GlueDeleteRequest. -/
structure GlueDeleteRequest where
  Method : String
  Params : GlueDeleteParams
deriving DecidableEq

/-- schema.GlueCreateRequestResponse (empty struct). -/
inductive GlueCreateRequestResponse where
  | mk
deriving DecidableEq

/-- schema.GlueUpdateRequestResponse (empty struct). -/
inductive GlueUpdateRequestResponse where
  | mk
deriving DecidableEq

/-- schema.GlueDeleteRequestResponse (empty struct). -/
inductive GlueDeleteRequestResponse where
  | mk
deriving DecidableEq

/-! ## Client core (client.go) -/

/-- Modelled from the spec: the `Endpoint` constant (defined in a source file
not present here) is "a single fixed endpoint URL"; its exact text is
irrelevant to the properties below. -/
def Endpoint : String := "https://njal.la/api/1/"

/-- Modelled from the spec: the `UserAgent` base constant (defined in a source
file not present here) is "a fixed default string". -/
def UserAgent : String := "njalla-dns-go"

/-- Modelled from the spec: `HTTPMethod` — the wire protocol uses "HTTP POST
to a single fixed endpoint URL, fixed method"; client.go also declares
`const httpMethod string = "POST"`. -/
def HTTPMethod : String := "POST"

/-- The configuration-carrying fields of client.go's `Client` struct
(the `httpClient` handle and the sub-client pointers carry no data). -/
structure Client where
  apiKey : String
  endpoint : String
  apiKeyValid : Bool
  applicationName : String
  applicationVersion : String
  userAgent : String
deriving DecidableEq

/-- Character class `[a-z0-9]`. -/
def isLowerAlnum (c : Char) : Bool :=
  (decide ('a' ≤ c) && decide (c ≤ 'z')) || (decide ('0' ≤ c) && decide (c ≤ '9'))

/-- Helper for `validApiKeyMatch`: scans the characters keeping the length of
the current run of `[a-z0-9]` characters, reporting whether some run reaches
length 40. -/
def hasLowerAlnumRun : Nat → List Char → Bool
  | run, [] => decide (40 ≤ run)
  | run, c :: cs =>
    if isLowerAlnum c then hasLowerAlnumRun (run + 1) cs
    else decide (40 ≤ run) || hasLowerAlnumRun 0 cs

/-- `validApiKey.MatchString(apiKey)` where
`validApiKey = regexp.MustCompile("[a-z0-9]{40}")`. Go's `MatchString` is
unanchored: it reports whether the string CONTAINS a match, i.e. whether some
run of 40 consecutive lowercase-alphanumeric characters occurs anywhere. -/
def validApiKeyMatch (s : String) : Bool :=
  hasLowerAlnumRun 0 s.toList

/-- The two `ClientOption` constructors of client.go, as data: `APIKey(key)`
and `Application(name, version)`. -/
inductive ClientOption where
  | apiKeyOpt (apiKey : String)
  | applicationOpt (name version : String)
deriving DecidableEq

/-- Applying a `ClientOption` closure to the client: the bodies of the
closures returned by `APIKey` and `Application`. -/
def applyOption (c : Client) : ClientOption → Client
  | .apiKeyOpt k =>
      { c with apiKey := k, apiKeyValid := validApiKeyMatch k }
  | .applicationOpt n v =>
      { c with applicationName := n, applicationVersion := v }

/-- `(c *Client) UserAgent()`: the switch that builds `c.userAgent` from the
application name/version and the `UserAgent` base constant. -/
def Client.buildUserAgent (c : Client) : Client :=
  if c.applicationName != "" && c.applicationVersion != "" then
    { c with userAgent := c.applicationName ++ "/" ++ c.applicationVersion ++ " " ++ UserAgent }
  else if c.applicationName != "" && c.applicationVersion == "" then
    { c with userAgent := c.applicationName ++ " " ++ UserAgent }
  else
    { c with userAgent := UserAgent }

/-- `NewClient(options ...ClientOption)`: defaults (`endpoint: Endpoint`,
`apiKeyValid: true`, Go zero values for the string fields), then applies each
option in order, then calls `client.UserAgent()`. -/
def NewClient (options : List ClientOption) : Client :=
  let client : Client :=
    { apiKey := "", endpoint := Endpoint, apiKeyValid := true,
      applicationName := "", applicationVersion := "", userAgent := "" }
  let client := options.foldl applyOption client
  client.buildUserAgent

/-- A Go value passed as a request body, abstracted by its `json.Marshal`
outcome: either it serializes to some bytes, or marshalling fails (e.g. a
value containing a channel or function field). -/
inductive BodyVal where
  | serializable (bytes : String)
  | unserializable (msg : String)
deriving DecidableEq

/-- Outcome of `json.Marshal`. -/
inductive MarshalResult where
  | ok (bytes : String)
  | err (msg : String)
deriving DecidableEq

/-- `json.Marshal(body)` for `body any`: Go `nil` marshals to `null`; on
error Marshal returns nil bytes together with the error. -/
def jsonMarshal : Option BodyVal → MarshalResult
  | none => .ok "null"
  | some (.serializable bs) => .ok bs
  | some (.unserializable msg) => .err msg

/-- The observable pieces of the `*http.Request` built by `NewRequest`. -/
structure HttpRequest where
  method : String
  url : String
  body : String
  headers : List (String × String)
  ctx : Ctx
deriving DecidableEq

/-- `req.Header.Set(k, v)`: replaces any existing entry for the key,
otherwise appends. -/
def setHeader (hs : List (String × String)) (k v : String) : List (String × String) :=
  if hs.any (fun p => p.1 == k) then
    hs.map (fun p => if p.1 == k then (k, v) else p)
  else
    hs ++ [(k, v)]

/-- Header lookup. -/
def getHeader (hs : List (String × String)) (k : String) : Option String :=
  (hs.find? (fun p => p.1 == k)).map (fun p => p.2)

/-- `(c *Client) NewRequest(ctx, body)`.  Mirrors the source line by line:
`reqBody, err := json.Marshal(body)` followed immediately by
`req, err := http.NewRequest(HTTPMethod, url, bytes.NewBuffer(reqBody))`
overwrites the marshal error; with the fixed "POST" method and the constant
endpoint URL `http.NewRequest` itself never fails, so that `err` is nil
(on a marshal failure `reqBody` is nil and the buffer is empty).  Then the
User-Agent header is set; if the key failed the validity pattern the call
errors; else a non-empty key sets the Authorization header; a non-nil body
sets Accept/Content-Type; finally the request is bound to `ctx`. -/
def Client.NewRequest (c : Client) (ctx : Ctx) (body : Option BodyVal) :
    Except String HttpRequest :=
  let url := c.endpoint
  let reqBody : String :=
    match jsonMarshal body with
    | .ok bs => bs
    | .err _ => ""
  let req : HttpRequest :=
    { method := HTTPMethod, url := url, body := reqBody, headers := [],
      ctx := Ctx.background }
  let req := { req with headers := setHeader req.headers "User-Agent" c.userAgent }
  if !c.apiKeyValid then
    .error "invalid API key"
  else
    let req :=
      if c.apiKey != "" then
        { req with headers := setHeader req.headers "Authorization" ("Njalla " ++ c.apiKey) }
      else req
    let req :=
      if body.isSome then
        let hs := setHeader (setHeader req.headers "Accept" "application/json") "Content-Type" "application/json"
        { req with headers := hs }
      else req
    .ok { req with ctx := ctx }

/-- Outcome of `json.NewDecoder(resp.Body).Decode(&wrapper)` for the
anonymous wrapper struct `{ Result json.RawMessage }`: either the decoder
errors, or it yields the raw bytes of the `result` field — the empty string
when the key is absent (that is the only way `len(wrapper.Result) == 0`). -/
inductive EnvelopeDecode where
  | decodeErr (msg : String)
  | decoded (result : String)
deriving DecidableEq

/-- Outcome of `c.httpClient.Do(r)`: a network-level error, or a response
with a status code and a body (abstracted by its envelope-decode outcome). -/
inductive TransportResult where
  | netErr (msg : String)
  | response (statusCode : Nat) (body : EnvelopeDecode)
deriving DecidableEq

/-- `(c *Client) DoRequest(r, v)`.  The typed target `v` is modelled as
`none` (Go `v == nil`) or `some unmarshal` where `unmarshal` is the outcome
of `json.Unmarshal(wrapper.Result, v)` on given result bytes.  Mirrors the
source: a non-200 status only ASSIGNS `err`; the body is decoded regardless;
an empty `wrapper.Result` errors; with a target, a successful unmarshal
returns `(v, nil)` — discarding any status error — and only the final
`return nil, err` (reached when `v == nil`) surfaces the status error. -/
def DoRequest {α : Type} (tr : TransportResult)
    (v : Option (String → Except String α)) : Except String (Option α) :=
  match tr with
  | .netErr msg => .error msg
  | .response statusCode body =>
    let statusErr : Option String :=
      if statusCode != 200 then
        some ("Server responded with status code " ++ toString statusCode)
      else none
    match body with
    | .decodeErr msg => .error ("failed to decode response: " ++ msg)
    | .decoded result =>
      if result.length == 0 then
        .error "missing result field in response"
      else
        match v with
        | some unmarshal =>
          match unmarshal result with
          | .error msg => .error ("failed to unmarshal result: " ++ msg)
          | .ok a => .ok (some a)
        | none =>
          match statusErr with
          | some e => .error e
          | none => .ok none

/-! ## Guarded resource operations

Each sub-client method performs at most two round trips: a list call and a
mutating call, each of which goes through `NewRequest`/`DoRequest` with a
context and a `{method, params}` body.  The round trips are modelled by a
transport oracle (`Transport`) that maps each call — with the context it is
issued under — to its outcome, and every operation additionally returns the
log of RPC calls it issued, in order, as `RpcEvent`s. -/

/-- One issued RPC round trip, recording the context it was issued under and
its request body. -/
inductive RpcEvent where
  | listRecords (ctx : Ctx) (domain : String)
  | addRecord (ctx : Ctx) (body : RecordCreateRequest)
  | editRecord (ctx : Ctx) (body : RecordUpdateRequest)
  | removeRecord (ctx : Ctx) (body : RecordDeleteRequest)
  | listDomains (ctx : Ctx)
  | editDomain (ctx : Ctx) (body : UpdateDomainRequest)
  | listForwards (ctx : Ctx) (domain : String)
  | addForward (ctx : Ctx) (body : ForwardCreateRequest)
  | removeForward (ctx : Ctx) (body : ForwardDeleteRequest)
  | listGlue (ctx : Ctx) (domain : String)
  | addGlue (ctx : Ctx) (body : GlueCreateRequest)
  | editGlue (ctx : Ctx) (body : GlueUpdateRequest)
  | removeGlue (ctx : Ctx) (body : GlueDeleteRequest)
deriving DecidableEq

/-- Transport oracle: the outcome of each RPC round trip, as a function of
the context it is issued under and its parameters.  List outcomes are the
already-unmarshalled collections (`response.Records`, `response.Domains`,
`response.Forward`, `response.Glue`). -/
structure Transport where
  listRecords : Ctx → String → Except String (List RecordResponse)
  addRecord : Ctx → RecordCreateRequest → Except String RecordCreateRequestResponse
  editRecord : Ctx → RecordUpdateRequest → Except String RecordUpdateRequestResponse
  removeRecord : Ctx → RecordDeleteRequest → Except String RecordDeleteRequestResponse
  listDomains : Ctx → Except String (List ListDomainResponse)
  editDomain : Ctx → UpdateDomainRequest → Except String UpdateDomainRequestResponse
  listForwards : Ctx → String → Except String (List ForwardResponse)
  addForward : Ctx → ForwardCreateRequest → Except String ForwardCreateRequestResponse
  removeForward : Ctx → ForwardDeleteRequest → Except String ForwardDeleteRequestResponse
  listGlue : Ctx → String → Except String (List GlueResponse)
  addGlue : Ctx → GlueCreateRequest → Except String GlueCreateRequestResponse
  editGlue : Ctx → GlueUpdateRequest → Except String GlueUpdateRequestResponse
  removeGlue : Ctx → GlueDeleteRequest → Except String GlueDeleteRequestResponse

/-- `(c *RecordClient) CreateRecord(ctx, r)`.  NOTE the first line of the
source body: `existingRecords, err := c.ListRecords(context.Background(),
r.Domain)` — the pre-listing is issued under `context.Background()`, not the
caller's `ctx`; only the mutating call uses `ctx`. -/
def CreateRecord (t : Transport) (ctx : Ctx) (r : RecordCreateParams) :
    Except String RecordCreateRequestResponse × List RpcEvent :=
  match t.listRecords Ctx.background r.Domain with
  | .error e => (.error e, [.listRecords Ctx.background r.Domain])
  | .ok existingRecords =>
    if existingRecords.any (fun record => record.Name == r.Name) then
      (.error ("record with name " ++ r.Name ++ " already exists"),
       [.listRecords Ctx.background r.Domain])
    else
      let body : RecordCreateRequest :=
        { Method := "add-record",
          Params :=
            { Domain := r.Domain, «Type» := r.«Type», Name := r.Name,
              Content := r.Content, TTL := r.TTL, Prio := r.Prio,
              Weight := r.Weight, Port := r.Port, Target := r.Target,
              SSHAlgorithm := r.SSHAlgorithm, SSHType := r.SSHType } }
      match t.addRecord ctx body with
      | .error e =>
        (.error e, [.listRecords Ctx.background r.Domain, .addRecord ctx body])
      | .ok resp =>
        (.ok resp, [.listRecords Ctx.background r.Domain, .addRecord ctx body])

/-- `(c *RecordClient) UpdateRecord(ctx, r)`: lists under the caller's `ctx`,
scans for a record with matching `ID`, errors when none exists, otherwise
issues `edit-record`. -/
def UpdateRecord (t : Transport) (ctx : Ctx) (r : RecordUpdateParams) :
    Except String RecordUpdateRequestResponse × List RpcEvent :=
  match t.listRecords ctx r.Domain with
  | .error e => (.error e, [.listRecords ctx r.Domain])
  | .ok existingRecords =>
    if !(existingRecords.any (fun record => record.ID == r.ID)) then
      (.error ("record with ID " ++ r.ID ++ " does not exist"),
       [.listRecords ctx r.Domain])
    else
      let body : RecordUpdateRequest :=
        { Method := "edit-record",
          Params :=
            { ID := r.ID, Domain := r.Domain, «Type» := r.«Type», Name := r.Name,
              Content := r.Content, TTL := r.TTL, Prio := r.Prio,
              Weight := r.Weight, Port := r.Port, Target := r.Target,
              SSHAlgorithm := r.SSHAlgorithm, SSHType := r.SSHType } }
      match t.editRecord ctx body with
      | .error e => (.error e, [.listRecords ctx r.Domain, .editRecord ctx body])
      | .ok resp => (.ok resp, [.listRecords ctx r.Domain, .editRecord ctx body])

/-- `(c *RecordClient) DeleteRecord(ctx, r)`: lists under the caller's `ctx`,
scans for a record with matching `ID`, errors when none exists, otherwise
issues `remove-record`. -/
def DeleteRecord (t : Transport) (ctx : Ctx) (r : RecordDeleteParams) :
    Except String RecordDeleteRequestResponse × List RpcEvent :=
  match t.listRecords ctx r.Domain with
  | .error e => (.error e, [.listRecords ctx r.Domain])
  | .ok existingRecords =>
    if !(existingRecords.any (fun record => record.ID == r.ID)) then
      (.error ("record with ID " ++ r.ID ++ " does not exist"),
       [.listRecords ctx r.Domain])
    else
      let body : RecordDeleteRequest :=
        { Method := "remove-record", Params := { ID := r.ID, Domain := r.Domain } }
      match t.removeRecord ctx body with
      | .error e => (.error e, [.listRecords ctx r.Domain, .removeRecord ctx body])
      | .ok resp => (.ok resp, [.listRecords ctx r.Domain, .removeRecord ctx body])

/-- `(c *DomainClient) EditDomain(ctx, domain, mailForwarding, dnssec,
lock)`: lists all domains under the caller's `ctx`, scans for one whose
`Name` equals `domain`, errors when none exists, otherwise issues
`edit-domain`. -/
def EditDomain (t : Transport) (ctx : Ctx) (domain : String)
    (mailForwarding : Bool) (dnssec : Bool) (lock : Bool) :
    Except String UpdateDomainRequestResponse × List RpcEvent :=
  match t.listDomains ctx with
  | .error e => (.error e, [.listDomains ctx])
  | .ok existingDomains =>
    if !(existingDomains.any (fun d => d.Name == domain)) then
      (.error ("domain " ++ domain ++ " does not exists"), [.listDomains ctx])
    else
      let body : UpdateDomainRequest :=
        { Method := "edit-domain",
          Params :=
            { Domain := domain, MailForwarding := mailForwarding,
              DNSSEC := dnssec, Lock := lock } }
      match t.editDomain ctx body with
      | .error e => (.error e, [.listDomains ctx, .editDomain ctx body])
      | .ok resp => (.ok resp, [.listDomains ctx, .editDomain ctx body])

/-- `(c *ForwardClient) CreateForward(ctx, forwardParams)`: lists under the
caller's `ctx`, scans for a forward matching on BOTH `To` and `From`
(`forward.To == forwardParams.To && forward.From == forwardParams.From`),
errors when one exists (note the source formats the message with `To` first),
otherwise issues `add-forward`. -/
def CreateForward (t : Transport) (ctx : Ctx) (forwardParams : ForwardParams) :
    Except String ForwardCreateRequestResponse × List RpcEvent :=
  match t.listForwards ctx forwardParams.Domain with
  | .error e => (.error e, [.listForwards ctx forwardParams.Domain])
  | .ok existingForwards =>
    if existingForwards.any (fun forward =>
        forward.To == forwardParams.To && forward.From == forwardParams.From) then
      (.error ("Forward record from " ++ forwardParams.To ++ " to " ++
               forwardParams.From ++ " already exists"),
       [.listForwards ctx forwardParams.Domain])
    else
      let body : ForwardCreateRequest :=
        { Method := "add-forward", Params := forwardParams }
      match t.addForward ctx body with
      | .error e =>
        (.error e, [.listForwards ctx forwardParams.Domain, .addForward ctx body])
      | .ok resp =>
        (.ok resp, [.listForwards ctx forwardParams.Domain, .addForward ctx body])

/-- `(c *ForwardClient) DeleteForward(ctx, forwardParams)`: lists under the
caller's `ctx`, scans for a forward matching on BOTH `To` and `From`, errors
when none exists, otherwise issues `remove-forward`. -/
def DeleteForward (t : Transport) (ctx : Ctx) (forwardParams : ForwardParams) :
    Except String ForwardDeleteRequestResponse × List RpcEvent :=
  match t.listForwards ctx forwardParams.Domain with
  | .error e => (.error e, [.listForwards ctx forwardParams.Domain])
  | .ok existingForwards =>
    if !(existingForwards.any (fun forward =>
        forward.To == forwardParams.To && forward.From == forwardParams.From)) then
      (.error ("forward record from " ++ forwardParams.To ++ " to " ++
               forwardParams.From ++ " does not exists"),
       [.listForwards ctx forwardParams.Domain])
    else
      let body : ForwardDeleteRequest :=
        { Method := "remove-forward", Params := forwardParams }
      match t.removeForward ctx body with
      | .error e =>
        (.error e, [.listForwards ctx forwardParams.Domain, .removeForward ctx body])
      | .ok resp =>
        (.ok resp, [.listForwards ctx forwardParams.Domain, .removeForward ctx body])

/-- `(c *GlueClient) CreateGlue(ctx, glueParams)`: lists under the caller's
`ctx`, scans for a glue record with matching `Name`, errors when one exists,
otherwise issues `add-glue`. -/
def CreateGlue (t : Transport) (ctx : Ctx) (glueParams : GlueParams) :
    Except String GlueCreateRequestResponse × List RpcEvent :=
  match t.listGlue ctx glueParams.Domain with
  | .error e => (.error e, [.listGlue ctx glueParams.Domain])
  | .ok existingGlues =>
    if existingGlues.any (fun glue => glue.Name == glueParams.Name) then
      (.error ("Glue record " ++ glueParams.Name ++ " already exists"),
       [.listGlue ctx glueParams.Domain])
    else
      let body : GlueCreateRequest := { Method := "add-glue", Params := glueParams }
      match t.addGlue ctx body with
      | .error e => (.error e, [.listGlue ctx glueParams.Domain, .addGlue ctx body])
      | .ok resp => (.ok resp, [.listGlue ctx glueParams.Domain, .addGlue ctx body])

/-- `(c *GlueClient) UpdateGlue(ctx, glueParams)`: lists under the caller's
`ctx`, scans for a glue record with matching `Name`, errors when none exists
(the source's message reads "glue record with ID %s" but formats the Name),
otherwise issues `edit-glue`. -/
def UpdateGlue (t : Transport) (ctx : Ctx) (glueParams : GlueParams) :
    Except String GlueUpdateRequestResponse × List RpcEvent :=
  match t.listGlue ctx glueParams.Domain with
  | .error e => (.error e, [.listGlue ctx glueParams.Domain])
  | .ok existingRecords =>
    if !(existingRecords.any (fun record => record.Name == glueParams.Name)) then
      (.error ("glue record with ID " ++ glueParams.Name ++ " does not exist"),
       [.listGlue ctx glueParams.Domain])
    else
      let body : GlueUpdateRequest := { Method := "edit-glue", Params := glueParams }
      match t.editGlue ctx body with
      | .error e => (.error e, [.listGlue ctx glueParams.Domain, .editGlue ctx body])
      | .ok resp => (.ok resp, [.listGlue ctx glueParams.Domain, .editGlue ctx body])

/-- `(c *GlueClient) DeleteGlue(ctx, glueParams)`: lists under the caller's
`ctx`, scans for a glue record with matching `Name`, errors when none exists,
otherwise issues `remove-glue`. -/
def DeleteGlue (t : Transport) (ctx : Ctx) (glueParams : GlueDeleteParams) :
    Except String GlueDeleteRequestResponse × List RpcEvent :=
  match t.listGlue ctx glueParams.Domain with
  | .error e => (.error e, [.listGlue ctx glueParams.Domain])
  | .ok existingRecords =>
    if !(existingRecords.any (fun record => record.Name == glueParams.Name)) then
      (.error ("glue record with name " ++ glueParams.Name ++ " does not exist"),
       [.listGlue ctx glueParams.Domain])
    else
      let body : GlueDeleteRequest := { Method := "remove-glue", Params := glueParams }
      match t.removeGlue ctx body with
      | .error e => (.error e, [.listGlue ctx glueParams.Domain, .removeGlue ctx body])
      | .ok resp => (.ok resp, [.listGlue ctx glueParams.Domain, .removeGlue ctx body])

/-! ## Helper lemmas and concrete fixtures -/

/-- A linear scan comparing a string field against a constant succeeds
exactly when some element's field equals the constant. -/
theorem any_field_eq_true {α : Type} (f : α → String) (c : String) (l : List α)
    (h : ∃ x ∈ l, f x = c) : l.any (fun x => f x == c) = true := by
  rw [List.any_eq_true]
  simpa [beq_iff_eq] using h

/-- A linear scan comparing a string field against a constant fails exactly
when no element's field equals the constant. -/
theorem any_field_eq_false {α : Type} (f : α → String) (c : String) (l : List α)
    (h : ¬ ∃ x ∈ l, f x = c) : l.any (fun x => f x == c) = false := by
  rw [← Bool.not_eq_true, List.any_eq_true]
  simpa [beq_iff_eq] using h

/-- The forward scan compares the `(To, From)` pair; it succeeds exactly when
some element matches on both fields. -/
theorem any_pair_eq_true (l : List ForwardResponse) (p : ForwardParams)
    (h : ∃ fw ∈ l, fw.To = p.To ∧ fw.From = p.From) :
    l.any (fun fw => fw.To == p.To && fw.From == p.From) = true := by
  rw [List.any_eq_true]
  simpa [beq_iff_eq] using h

/-- The forward scan fails exactly when no element matches on both fields. -/
theorem any_pair_eq_false (l : List ForwardResponse) (p : ForwardParams)
    (h : ¬ ∃ fw ∈ l, fw.To = p.To ∧ fw.From = p.From) :
    l.any (fun fw => fw.To == p.To && fw.From == p.From) = false := by
  rw [← Bool.not_eq_true, List.any_eq_true]
  simpa [beq_iff_eq] using h

/-- Scanning a mapped list is scanning the original under the composite
predicate. -/
theorem any_map_eq {α : Type} (f : α → String) (p : String → Bool) (l : List α) :
    (l.map f).any p = l.any (fun x => p (f x)) := by
  induction l with
  | nil => rfl
  | cons x xs ih => simp [ih]

/-- The duplicate-name scan depends only on the `Name` projection of the
pre-list. -/
theorem any_name_of_map_eq (l1 l2 : List RecordResponse) (c : String)
    (h : l1.map RecordResponse.Name = l2.map RecordResponse.Name) :
    l1.any (fun rec => rec.Name == c) = l2.any (fun rec => rec.Name == c) := by
  have h1 := congrArg (fun l => List.any l (fun s => s == c)) h
  simp only at h1
  rw [any_map_eq, any_map_eq] at h1
  exact h1

/-- Transport double for witnesses: serves fixed collections and canned
mutate responses, for every context. -/
def testTransport (recs : List RecordResponse) (doms : List ListDomainResponse)
    (fws : List ForwardResponse) (gs : List GlueResponse) : Transport where
  listRecords := fun _ _ => .ok recs
  addRecord := fun _ _ => .ok { ID := "9", Name := "", «Type» := "", Content := "", TTL := 0 }
  editRecord := fun _ _ => .ok { ID := "9", Name := "", «Type» := "", Content := "", TTL := 0 }
  removeRecord := fun _ _ => .ok .mk
  listDomains := fun _ => .ok doms
  editDomain := fun _ _ =>
    .ok { Name := "", Status := "", Expiry := "", Autorenew := false, Locked := false,
          Mailforwarding := false, MaxNameservers := 0, DNSSECType := "", MaxStaticPages := 0 }
  listForwards := fun _ _ => .ok fws
  addForward := fun _ _ => .ok { Domain := "", From := "", To := "" }
  removeForward := fun _ _ => .ok .mk
  listGlue := fun _ _ => .ok gs
  addGlue := fun _ _ => .ok .mk
  editGlue := fun _ _ => .ok .mk
  removeGlue := fun _ _ => .ok .mk

/-- Fixture: an existing A record named "www". -/
def wwwRecord : RecordResponse :=
  { ID := "1", Name := "www", «Type» := "A", Content := "1.2.3.4", TTL := 300 }

/-- Fixture: create parameters for a TXT record that reuses the name "www"
with different type and content. -/
def txtCreateParams : RecordCreateParams :=
  { Domain := "example.com", «Type» := "TXT", Name := "www", Content := "hello",
    TTL := 600, Prio := 0, Weight := 0, Port := 0, Target := "",
    SSHAlgorithm := 0, SSHType := 0 }

/-- Fixture: update parameters addressing record ID "1" on example.com. -/
def updParams : RecordUpdateParams :=
  { ID := "1", Domain := "example.com", «Type» := "A", Name := "www",
    Content := "5.6.7.8", TTL := 300, Prio := 0, Weight := 0, Port := 0,
    Target := "", SSHAlgorithm := 0, SSHType := 0 }

/-- Fixture: an existing forward a@x.com → b@y.com. -/
def fwAB : ForwardResponse := { From := "a@x.com", To := "b@y.com" }

/-- Fixture: an existing forward a@x.com → c@z.com (same From, different To). -/
def fwAC : ForwardResponse := { From := "a@x.com", To := "c@z.com" }

/-- Fixture: forward create parameters a@x.com → b@y.com. -/
def fwParamsAB : ForwardParams := { Domain := "x.com", From := "a@x.com", To := "b@y.com" }

/-- Fixture: an existing glue record. -/
def glueNs1 : GlueResponse :=
  { Name := "ns1.example.com", Address4 := "1.2.3.4", Address6 := "" }

/-- Fixture: glue create parameters reusing the existing glue name with a
different address. -/
def glueParamsNs1 : GlueParams :=
  { Domain := "example.com", Name := "ns1.example.com", Address4 := "5.6.7.8",
    Address6 := "" }

/-- Fixture: a transport whose pre-lists already hold the matching elements. -/
def tDup : Transport := testTransport [wwwRecord] [] [fwAB] [glueNs1]

/-- Fixture: a transport whose pre-lists are all empty. -/
def emptyTransport : Transport := testTransport [] [] [] []

/-! ## Claims about DoRequest (C3, C4) -/

/-- Claim C3 counterexample: a response with HTTP status 500 whose body is a
well-formed envelope with result bytes "310", with a typed decode target
whose unmarshal succeeds, makes `DoRequest` return the decoded value with NO
error — refuting the claim that after envelope parsing the call returns an
error describing the non-200 status. -/
theorem doRequest_nonok_typed_target_no_error :
    DoRequest (TransportResult.response 500 (EnvelopeDecode.decoded "310"))
      (some fun s => (Except.ok s : Except String String)) = Except.ok (some "310") ∧
    ∀ e : String,
      DoRequest (TransportResult.response 500 (EnvelopeDecode.decoded "310"))
        (some fun s => (Except.ok s : Except String String)) ≠ Except.error e := by
  have h0 : DoRequest (TransportResult.response 500 (EnvelopeDecode.decoded "310"))
      (some fun s => (Except.ok s : Except String String)) = Except.ok (some "310") := rfl
  refine ⟨h0, fun e h => ?_⟩
  rw [h0] at h
  exact Except.noConfusion h

/-- Claim C3 (amended): for a non-200 response the body is still decoded —
the status check does not short-circuit, so decode errors and the
missing-result error take precedence — but the HTTP-status error is returned
only when NO typed decode target is supplied; when a typed target is supplied
and the result payload unmarshals successfully, `DoRequest` returns the
decoded value with no error, discarding the status error. -/
theorem doRequest_status_error_only_without_target {α : Type} (status : Nat)
    (hs : status ≠ 200) (msg res : String) (dec : String → Except String α) (a : α) :
    DoRequest (TransportResult.response status (EnvelopeDecode.decodeErr msg)) (some dec) =
      Except.error ("failed to decode response: " ++ msg) ∧
    DoRequest (TransportResult.response status (EnvelopeDecode.decoded "")) (some dec) =
      Except.error "missing result field in response" ∧
    (res.length ≠ 0 → dec res = .ok a →
      DoRequest (TransportResult.response status (EnvelopeDecode.decoded res)) (some dec) =
        Except.ok (some a)) ∧
    (res.length ≠ 0 →
      DoRequest (α := α) (TransportResult.response status (EnvelopeDecode.decoded res)) none =
        Except.error ("Server responded with status code " ++ toString status)) := by
  have hbs : (status != 200) = true := by simpa using hs
  refine ⟨rfl, rfl, fun h1 h2 => ?_, fun h1 => ?_⟩
  · have hb : (res.length == 0) = false := by simpa using h1
    simp [DoRequest, hb, h2]
  · have hb : (res.length == 0) = false := by simpa using h1
    simp [DoRequest, hb, hbs]

/-- Witness for C3's amended theorem at status 500 and result bytes "310". -/
theorem doRequest_status_error_only_without_target_witness :
    DoRequest (TransportResult.response 500 (EnvelopeDecode.decoded "310"))
      (some fun s => (Except.ok s : Except String String)) = Except.ok (some "310") ∧
    DoRequest (α := String) (TransportResult.response 500 (EnvelopeDecode.decoded "310")) none =
      Except.error ("Server responded with status code " ++ toString 500) := by
  have h := doRequest_status_error_only_without_target (α := String) 500 (by decide)
    "EOF" "310" (fun s => Except.ok s) "310"
  exact ⟨h.2.2.1 (by decide) rfl, h.2.2.2 (by decide)⟩

/-- Claim C4: a response body that is a valid JSON object lacking a `result`
key (or with an empty `result` raw value), e.g. the body of two bare braces,
makes `DoRequest` return the missing-result error and no decoded value, for
EVERY HTTP status code and every decode target. -/
theorem doRequest_missing_result_regardless_of_status {α : Type} (status : Nat)
    (v : Option (String → Except String α)) :
    DoRequest (TransportResult.response status (EnvelopeDecode.decoded "")) v =
      Except.error "missing result field in response" := rfl

/-! ## Claims about the existence-guard pattern (C1, C2, C5, C6, C8) -/

/-- Claim C1: for every create operation (CreateRecord, CreateForward,
CreateGlue), if the pre-listing of the scoped collection contains an element
whose natural key matches the create parameters (record `Name`; forward
`(From, To)` pair; glue `Name`), the operation returns an already-exists
error and does not issue the mutating RPC call: its event log holds only the
single pre-listing round trip. -/
theorem create_conflict_aborts_without_mutation
    (t : Transport) (ctx : Ctx)
    (r : RecordCreateParams) (recs : List RecordResponse)
    (fp : ForwardParams) (fws : List ForwardResponse)
    (gp : GlueParams) (gs : List GlueResponse)
    (hr : t.listRecords Ctx.background r.Domain = .ok recs)
    (hrdup : ∃ rec ∈ recs, rec.Name = r.Name)
    (hf : t.listForwards ctx fp.Domain = .ok fws)
    (hfdup : ∃ fw ∈ fws, fw.To = fp.To ∧ fw.From = fp.From)
    (hg : t.listGlue ctx gp.Domain = .ok gs)
    (hgdup : ∃ g ∈ gs, g.Name = gp.Name) :
    CreateRecord t ctx r =
      (.error ("record with name " ++ r.Name ++ " already exists"),
       [.listRecords Ctx.background r.Domain]) ∧
    CreateForward t ctx fp =
      (.error ("Forward record from " ++ fp.To ++ " to " ++ fp.From ++ " already exists"),
       [.listForwards ctx fp.Domain]) ∧
    CreateGlue t ctx gp =
      (.error ("Glue record " ++ gp.Name ++ " already exists"),
       [.listGlue ctx gp.Domain]) := by
  have h1 := any_field_eq_true (fun rec : RecordResponse => rec.Name) r.Name recs hrdup
  have h2 := any_pair_eq_true fws fp hfdup
  have h3 := any_field_eq_true (fun g : GlueResponse => g.Name) gp.Name gs hgdup
  refine ⟨?_, ?_, ?_⟩
  · simp [CreateRecord, hr, h1]
  · simp [CreateForward, hf, h2]
  · simp [CreateGlue, hg, h3]

/-- Witness for C1 on concrete collections already holding the matching
elements. -/
theorem create_conflict_aborts_without_mutation_witness :
    CreateRecord tDup Ctx.background txtCreateParams =
      (.error ("record with name " ++ "www" ++ " already exists"),
       [.listRecords Ctx.background "example.com"]) ∧
    CreateForward tDup Ctx.background fwParamsAB =
      (.error ("Forward record from " ++ "b@y.com" ++ " to " ++ "a@x.com" ++ " already exists"),
       [.listForwards Ctx.background "x.com"]) ∧
    CreateGlue tDup Ctx.background glueParamsNs1 =
      (.error ("Glue record " ++ "ns1.example.com" ++ " already exists"),
       [.listGlue Ctx.background "example.com"]) :=
  create_conflict_aborts_without_mutation tDup Ctx.background
    txtCreateParams [wwwRecord] fwParamsAB [fwAB] glueParamsNs1 [glueNs1]
    rfl (by decide) rfl (by decide) rfl (by decide)

/-- Claim C2: for every update or delete operation guarded by the existence
check (UpdateRecord, DeleteRecord, EditDomain, UpdateGlue, DeleteGlue,
DeleteForward), if the pre-listing of the scoped collection contains no
element whose key matches (record `ID`; domain `Name`; glue `Name`; forward
`(From, To)` pair), the operation returns a does-not-exist error and does
not issue the mutating RPC call: its event log holds only the single
pre-listing round trip. -/
theorem update_delete_missing_aborts_without_mutation
    (t : Transport) (ctx : Ctx)
    (ru : RecordUpdateParams) (recs1 : List RecordResponse)
    (rd : RecordDeleteParams) (recs2 : List RecordResponse)
    (dom : String) (mf dn lk : Bool) (doms : List ListDomainResponse)
    (gu : GlueParams) (gs1 : List GlueResponse)
    (gd : GlueDeleteParams) (gs2 : List GlueResponse)
    (fp : ForwardParams) (fws : List ForwardResponse)
    (h1 : t.listRecords ctx ru.Domain = .ok recs1)
    (h1m : ¬ ∃ rec ∈ recs1, rec.ID = ru.ID)
    (h2 : t.listRecords ctx rd.Domain = .ok recs2)
    (h2m : ¬ ∃ rec ∈ recs2, rec.ID = rd.ID)
    (h3 : t.listDomains ctx = .ok doms)
    (h3m : ¬ ∃ d ∈ doms, d.Name = dom)
    (h4 : t.listGlue ctx gu.Domain = .ok gs1)
    (h4m : ¬ ∃ g ∈ gs1, g.Name = gu.Name)
    (h5 : t.listGlue ctx gd.Domain = .ok gs2)
    (h5m : ¬ ∃ g ∈ gs2, g.Name = gd.Name)
    (h6 : t.listForwards ctx fp.Domain = .ok fws)
    (h6m : ¬ ∃ fw ∈ fws, fw.To = fp.To ∧ fw.From = fp.From) :
    UpdateRecord t ctx ru =
      (.error ("record with ID " ++ ru.ID ++ " does not exist"),
       [.listRecords ctx ru.Domain]) ∧
    DeleteRecord t ctx rd =
      (.error ("record with ID " ++ rd.ID ++ " does not exist"),
       [.listRecords ctx rd.Domain]) ∧
    EditDomain t ctx dom mf dn lk =
      (.error ("domain " ++ dom ++ " does not exists"), [.listDomains ctx]) ∧
    UpdateGlue t ctx gu =
      (.error ("glue record with ID " ++ gu.Name ++ " does not exist"),
       [.listGlue ctx gu.Domain]) ∧
    DeleteGlue t ctx gd =
      (.error ("glue record with name " ++ gd.Name ++ " does not exist"),
       [.listGlue ctx gd.Domain]) ∧
    DeleteForward t ctx fp =
      (.error ("forward record from " ++ fp.To ++ " to " ++ fp.From ++ " does not exists"),
       [.listForwards ctx fp.Domain]) := by
  have k1 := any_field_eq_false (fun rec : RecordResponse => rec.ID) ru.ID recs1 h1m
  have k2 := any_field_eq_false (fun rec : RecordResponse => rec.ID) rd.ID recs2 h2m
  have k3 := any_field_eq_false (fun d : ListDomainResponse => d.Name) dom doms h3m
  have k4 := any_field_eq_false (fun g : GlueResponse => g.Name) gu.Name gs1 h4m
  have k5 := any_field_eq_false (fun g : GlueResponse => g.Name) gd.Name gs2 h5m
  have k6 := any_pair_eq_false fws fp h6m
  refine ⟨?_, ?_, ?_, ?_, ?_, ?_⟩
  · simp [UpdateRecord, h1, k1]
  · simp [DeleteRecord, h2, k2]
  · simp [EditDomain, h3, k3]
  · simp [UpdateGlue, h4, k4]
  · simp [DeleteGlue, h5, k5]
  · simp [DeleteForward, h6, k6]

/-- Witness for C2 against empty pre-lists. -/
theorem update_delete_missing_aborts_without_mutation_witness :
    UpdateRecord emptyTransport (Ctx.custom 2) updParams =
      (.error ("record with ID " ++ "1" ++ " does not exist"),
       [.listRecords (Ctx.custom 2) "example.com"]) ∧
    EditDomain emptyTransport (Ctx.custom 2) "example.com" true false false =
      (.error ("domain " ++ "example.com" ++ " does not exists"),
       [.listDomains (Ctx.custom 2)]) ∧
    DeleteForward emptyTransport (Ctx.custom 2) fwParamsAB =
      (.error ("forward record from " ++ "b@y.com" ++ " to " ++ "a@x.com" ++ " does not exists"),
       [.listForwards (Ctx.custom 2) "x.com"]) := by
  have h := update_delete_missing_aborts_without_mutation emptyTransport (Ctx.custom 2)
    updParams [] { ID := "1", Domain := "example.com" } []
    "example.com" true false false []
    glueParamsNs1 [] { Domain := "example.com", Name := "ns1.example.com" } []
    fwParamsAB []
    rfl (by decide) rfl (by decide) rfl (by decide) rfl (by decide) rfl (by decide)
    rfl (by decide)
  exact ⟨h.1, h.2.2.1, h.2.2.2.2.2⟩

/-- Claim C5: forward existence matching is pair-based: CreateForward reports
a conflict exactly when some existing forward matches on BOTH `From` and
`To`; when no existing forward matches on both (e.g. only the `To` differs),
the create proceeds and issues the add-forward call; DeleteForward likewise
requires both fields to match for the record to count as existing. -/
theorem forward_existence_guard_is_pair_based
    (t : Transport) (ctx : Ctx) (p : ForwardParams) (fws : List ForwardResponse)
    (hl : t.listForwards ctx p.Domain = .ok fws) :
    ((∃ fw ∈ fws, fw.To = p.To ∧ fw.From = p.From) →
      CreateForward t ctx p =
        (.error ("Forward record from " ++ p.To ++ " to " ++ p.From ++ " already exists"),
         [.listForwards ctx p.Domain])) ∧
    ((¬ ∃ fw ∈ fws, fw.To = p.To ∧ fw.From = p.From) →
      (CreateForward t ctx p).2 =
        [.listForwards ctx p.Domain,
         .addForward ctx { Method := "add-forward", Params := p }]) ∧
    ((¬ ∃ fw ∈ fws, fw.To = p.To ∧ fw.From = p.From) →
      DeleteForward t ctx p =
        (.error ("forward record from " ++ p.To ++ " to " ++ p.From ++ " does not exists"),
         [.listForwards ctx p.Domain])) := by
  refine ⟨fun hdup => ?_, fun hno => ?_, fun hno => ?_⟩
  · simp [CreateForward, hl, any_pair_eq_true fws p hdup]
  · have k := any_pair_eq_false fws p hno
    cases haf : t.addForward ctx { Method := "add-forward", Params := p } with
    | error e => simp [CreateForward, hl, k, haf]
    | ok resp => simp [CreateForward, hl, k, haf]
  · simp [DeleteForward, hl, any_pair_eq_false fws p hno]

/-- Witness for C5 on the spec's example: creating a@x.com → b@y.com when
only a@x.com → c@z.com exists proceeds to issue the add-forward call. -/
theorem forward_existence_guard_is_pair_based_witness :
    (CreateForward (testTransport [] [] [fwAC] []) Ctx.background fwParamsAB).2 =
      [.listForwards Ctx.background "x.com",
       .addForward Ctx.background { Method := "add-forward", Params := fwParamsAB }] ∧
    DeleteForward (testTransport [] [] [fwAC] []) Ctx.background fwParamsAB =
      (.error ("forward record from " ++ "b@y.com" ++ " to " ++ "a@x.com" ++ " does not exists"),
       [.listForwards Ctx.background "x.com"]) := by
  have h := forward_existence_guard_is_pair_based (testTransport [] [] [fwAC] [])
    Ctx.background fwParamsAB [fwAC] rfl
  exact ⟨h.2.1 (by decide), h.2.2 (by decide)⟩

/-- Claim C6: CreateRecord's duplicate check compares only the `Name` field:
any pre-list holding a record whose `Name` equals the candidate's `Name`
causes rejection — even when the existing record's type and content differ —
and the outcome is unchanged under any modification of the other fields of
the pre-list (`Type`, `Content`, `TTL`, `ID`): only the `Name` projection of
the pre-list matters. -/
theorem createRecord_duplicate_check_compares_only_name
    (t : Transport) (ctx : Ctx) (r : RecordCreateParams)
    (recs : List RecordResponse)
    (hl : t.listRecords Ctx.background r.Domain = .ok recs)
    (hdup : ∃ rec ∈ recs, rec.Name = r.Name) :
    CreateRecord t ctx r =
      (.error ("record with name " ++ r.Name ++ " already exists"),
       [.listRecords Ctx.background r.Domain]) ∧
    (∀ (t' : Transport) (recs' : List RecordResponse),
      t'.listRecords Ctx.background r.Domain = .ok recs' →
      recs'.map RecordResponse.Name = recs.map RecordResponse.Name →
      CreateRecord t' ctx r =
        (.error ("record with name " ++ r.Name ++ " already exists"),
         [.listRecords Ctx.background r.Domain])) := by
  have h1 := any_field_eq_true (fun rec : RecordResponse => rec.Name) r.Name recs hdup
  refine ⟨by simp [CreateRecord, hl, h1], fun t' recs' hl' hmap => ?_⟩
  have h2 : recs'.any (fun rec => rec.Name == r.Name) = true :=
    (any_name_of_map_eq recs' recs r.Name hmap).trans h1
  simp [CreateRecord, hl', h2]

/-- Witness for C6: an existing A record "www"/1.2.3.4 blocks creating a TXT
record "www"/hello — same name, different type and content. -/
theorem createRecord_duplicate_check_compares_only_name_witness :
    CreateRecord tDup (Ctx.custom 3) txtCreateParams =
      (.error ("record with name " ++ "www" ++ " already exists"),
       [.listRecords Ctx.background "example.com"]) :=
  (createRecord_duplicate_check_compares_only_name tDup (Ctx.custom 3)
    txtCreateParams [wwwRecord] rfl (by decide)).1

/-- Claim C8 (code bug): CreateRecord's pre-listing round trip is NOT issued
under the caller-supplied context — the source passes `context.Background()`
to `ListRecords` — so with caller context `custom 1` the first issued call
carries `background`; by contrast UpdateRecord's pre-listing carries the
caller's context as the claim requires. -/
theorem createRecord_prelist_uses_background_ctx :
    (CreateRecord emptyTransport (Ctx.custom 1) txtCreateParams).2.head? =
      some (RpcEvent.listRecords Ctx.background "example.com") ∧
    Ctx.background ≠ Ctx.custom 1 ∧
    (UpdateRecord emptyTransport (Ctx.custom 1) updParams).2.head? =
      some (RpcEvent.listRecords (Ctx.custom 1) "example.com") :=
  ⟨rfl, by decide, rfl⟩

/-! ## Claims about the client configuration and request construction
(C7, C9, C10) -/

/-- The 41-character all-lowercase key used to exhibit the unanchored
pattern match. -/
def key41 : String := String.mk (List.replicate 41 'a')

/-- Claim C7 (code bug): the validity pattern `[a-z0-9]{40}` is applied with
Go's unanchored `MatchString`, so the 41-character lowercase key — which is
NOT a 40-character lowercase alphanumeric string — is accepted: the client
marks it valid, and `NewRequest` succeeds and sends the Authorization header
instead of failing with the invalid-API-key error.  (The claim's own example
does behave as claimed: "short" contains no 40-character run, so a client
configured with it fails every request before any transport use.) -/
theorem apiKey_pattern_unanchored_accepts_41_char_key :
    key41.length = 41 ∧
    validApiKeyMatch key41 = true ∧
    (NewClient [ClientOption.apiKeyOpt key41]).apiKeyValid = true ∧
    Client.NewRequest (NewClient [ClientOption.apiKeyOpt key41]) (Ctx.custom 7) none =
      .ok { method := "POST", url := Endpoint, body := "null",
            headers := [("User-Agent", UserAgent),
                        ("Authorization", "Njalla " ++ key41)],
            ctx := Ctx.custom 7 } ∧
    validApiKeyMatch "short" = false ∧
    Client.NewRequest (NewClient [ClientOption.apiKeyOpt "short"]) (Ctx.custom 7) none =
      .error "invalid API key" :=
  ⟨by decide, by decide, by decide, rfl, by decide, rfl⟩

/-- Claim C9: `NewRequest` never reports a `json.Marshal` failure: the
marshal error is overwritten by the (nil) error of `http.NewRequest`, so on
an unserializable body a client with a valid key gets back a request with an
EMPTY body and no error, and no possible error mentions the encoding — the
only error `NewRequest` can return is the invalid-API-key one. -/
theorem newRequest_swallows_marshal_error
    (c : Client) (ctx : Ctx) (msg : String) :
    (c.apiKeyValid = true →
      ∃ req, Client.NewRequest c ctx (some (BodyVal.unserializable msg)) = .ok req ∧
        req.body = "") ∧
    (∀ e, Client.NewRequest c ctx (some (BodyVal.unserializable msg)) = .error e →
      e = "invalid API key") := by
  constructor
  · intro hvalid
    simp only [Client.NewRequest, jsonMarshal, hvalid, Bool.not_true, Bool.false_eq_true,
      if_false, Option.isSome_some, if_true]
    refine ⟨_, rfl, ?_⟩
    cases hk : (c.apiKey != "") <;> simp [hk]
  · intro e h
    cases hv : c.apiKeyValid with
    | true => simp [Client.NewRequest, hv] at h
    | false =>
      simp only [Client.NewRequest, hv, Bool.not_false, if_true, Except.error.injEq] at h
      exact h.symm

/-- Witness for C9 on a freshly constructed default client. -/
theorem newRequest_swallows_marshal_error_witness :
    ∃ req, Client.NewRequest (NewClient []) Ctx.background
        (some (BodyVal.unserializable "json: unsupported type")) = .ok req ∧
      req.body = "" :=
  (newRequest_swallows_marshal_error (NewClient []) Ctx.background
    "json: unsupported type").1 rfl

/-- Folding the options never touches the key fields when no `APIKey` option
occurs. -/
theorem foldl_applyOption_no_apiKey (opts : List ClientOption) (c : Client)
    (h : ∀ k, ClientOption.apiKeyOpt k ∉ opts) :
    (opts.foldl applyOption c).apiKey = c.apiKey ∧
    (opts.foldl applyOption c).apiKeyValid = c.apiKeyValid := by
  induction opts generalizing c with
  | nil => exact ⟨rfl, rfl⟩
  | cons o os ih =>
    cases o with
    | apiKeyOpt k => exact absurd (List.mem_cons_self _ _) (h k)
    | applicationOpt n v =>
      have := ih { c with applicationName := n, applicationVersion := v }
        (fun k hk => h k (List.mem_cons_of_mem _ hk))
      simpa [applyOption] using this

/-- `UserAgent()` never touches the key fields. -/
theorem buildUserAgent_preserves_key (c : Client) :
    c.buildUserAgent.apiKey = c.apiKey ∧ c.buildUserAgent.apiKeyValid = c.apiKeyValid := by
  constructor <;> (simp only [Client.buildUserAgent]; split)
  · rfl
  · split <;> rfl
  · rfl
  · split <;> rfl

/-- Claim C10: a client constructed without the `APIKey` option keeps the
empty key and the default `apiKeyValid = true`, so every `NewRequest` it
makes succeeds without the invalid-credential error and sets no
Authorization header on the outgoing request. -/
theorem client_without_apiKey_option
    (opts : List ClientOption) (ctx : Ctx) (body : Option BodyVal)
    (h : ∀ k, ClientOption.apiKeyOpt k ∉ opts) :
    (NewClient opts).apiKey = "" ∧ (NewClient opts).apiKeyValid = true ∧
    ∃ req, Client.NewRequest (NewClient opts) ctx body = .ok req ∧
      getHeader req.headers "Authorization" = none := by
  have hf := foldl_applyOption_no_apiKey opts
    { apiKey := "", endpoint := Endpoint, apiKeyValid := true,
      applicationName := "", applicationVersion := "", userAgent := "" } h
  have hkey : (NewClient opts).apiKey = "" := by
    simp only [NewClient]
    rw [(buildUserAgent_preserves_key _).1, hf.1]
  have hval : (NewClient opts).apiKeyValid = true := by
    simp only [NewClient]
    rw [(buildUserAgent_preserves_key _).2, hf.2]
  refine ⟨hkey, hval, ?_⟩
  simp only [Client.NewRequest, hval, hkey, Bool.not_true, Bool.false_eq_true, if_false,
    bne_self_eq_false]
  cases body with
  | none => exact ⟨_, rfl, rfl⟩
  | some b => exact ⟨_, rfl, rfl⟩

/-- Witness for C10 on a client configured only with `Application`. -/
theorem client_without_apiKey_option_witness :
    (NewClient [ClientOption.applicationOpt "Foo" "1.0"]).apiKey = "" ∧
    (NewClient [ClientOption.applicationOpt "Foo" "1.0"]).apiKeyValid = true ∧
    ∃ req, Client.NewRequest (NewClient [ClientOption.applicationOpt "Foo" "1.0"])
        Ctx.background (some (BodyVal.serializable "payload")) = .ok req ∧
      getHeader req.headers "Authorization" = none :=
  client_without_apiKey_option [ClientOption.applicationOpt "Foo" "1.0"]
    Ctx.background (some (BodyVal.serializable "payload"))
    (fun k hk => by simp at hk)

end NjallaDns
